import Mathlib

/-!
# Verification of neutron_lib/db/api.py (transactional retry coordinator)

A shallow embedding of `neutron_lib/db/api.py`: the error classifier
(`_is_nested_instance`, `is_retriable`), the retry-exhaustion tagger, the
bounded retry executor, the context-sensitive retry gate, the
exception-to-retry converter, the event registry, the commit-time
relationship materializer and the context-manager singleton accessor,
together with theorems settling the specification's claims about them.

Python exceptions are modelled as immutable values of an inductive type
`Exc` carrying: the exception's class, the `_RETRY_EXCEEDED` attribute,
the result of `str(e)`, the `inner_exception` attribute (of `DBError`)
and the `inner_exceptions` list (of `MultipleExceptions`).  Mutating
`setattr(e, '_RETRY_EXCEEDED', True)` becomes the function
`setRetryExceeded` producing the updated value.
-/

/-- The exception classes relevant to `api.py`, one constructor per Python
class appearing in `_is_nested_instance` / `is_retriable`, plus a catch-all
`OtherError` for any unrelated exception class. -/
inductive ExcClass : Type where
  | DBDeadlock
  | StaleDataError
  | DBConnectionError
  | DBDuplicateEntry
  | RetryRequest
  | NeutronDbObjectDuplicateEntry
  | MultipleExceptions
  | DBError
  | OtherError
deriving DecidableEq, Repr

/-- A Python exception value as used by `api.py`:
`cls` its class, `retryExceeded` the `_RETRY_EXCEEDED` attribute
(absent = `false`, matching `getattr(e, '_RETRY_EXCEEDED', False)`),
`strRep` the value of `str(e)`, `innerException` the `inner_exception`
attribute of the `DBError` family (`none` models Python `None`), and
`innerExceptions` the `inner_exceptions` list of `MultipleExceptions`. -/
inductive Exc : Type where
  | mk (cls : ExcClass) (retryExceeded : Bool) (strRep : String)
       (innerException : Option Exc) (innerExceptions : List Exc) : Exc

def Exc.cls : Exc → ExcClass
  | .mk c _ _ _ _ => c

def Exc.retryExceeded : Exc → Bool
  | .mk _ r _ _ _ => r

def Exc.strRep : Exc → String
  | .mk _ _ s _ _ => s

def Exc.innerException : Exc → Option Exc
  | .mk _ _ _ i _ => i

def Exc.innerExceptions : Exc → List Exc
  | .mk _ _ _ _ l => l

/-- The oslo_db exception hierarchy as far as `api.py` can observe it:
`DBDeadlock`, `DBConnectionError` and `DBDuplicateEntry` are subclasses of
`DBError`; every class is a subclass of itself; all other pairs are
unrelated (`StaleDataError` is SQLAlchemy's, `RetryRequest` and
`MultipleExceptions` and `NeutronDbObjectDuplicateEntry` derive from plain
`Exception`). -/
def isSubclassOf (c parent : ExcClass) : Bool :=
  decide (c = parent) ||
    (decide (parent = ExcClass.DBError) &&
      (decide (c = ExcClass.DBDeadlock) || decide (c = ExcClass.DBConnectionError) ||
       decide (c = ExcClass.DBDuplicateEntry)))

/-- Python `isinstance(e, tuple_of_classes)`. -/
def pyIsInstance (e : Exc) (etypes : List ExcClass) : Bool :=
  etypes.any (fun t => isSubclassOf e.cls t)

mutual
/-- `_is_nested_instance(e, etypes)` from api.py lines 99-107:
check if the exception or its inner exceptions are an instance of `etypes`;
recurses into the `inner_exceptions` of a `MultipleExceptions` aggregate and
into the `inner_exception` of a `DBError` wrapper. -/
def _is_nested_instance : Exc → List ExcClass → Bool
  | .mk cls _ _ innerExc inners, etypes =>
    if etypes.any (fun t => isSubclassOf cls t) then true
    else if isSubclassOf cls ExcClass.MultipleExceptions then nestedAnyList inners etypes
    else if isSubclassOf cls ExcClass.DBError then nestedAnyOpt innerExc etypes
    else false

/-- `_is_nested_instance(e.inner_exception, etypes)` when `inner_exception`
may be `None`: `isinstance(None, ...)` is false and `None` matches neither
container shape, so the recursion returns false on `None`. -/
def nestedAnyOpt : Option Exc → List ExcClass → Bool
  | none, _ => false
  | some e, etypes => _is_nested_instance e etypes

/-- `any(_is_nested_instance(i, etypes) for i in e.inner_exceptions)`. -/
def nestedAnyList : List Exc → List ExcClass → Bool
  | [], _ => false
  | e :: rest, etypes => _is_nested_instance e etypes || nestedAnyList rest etypes
end

/-- Does `chars` start with `needle` (character-wise)? -/
def startsWithChars : List Char → List Char → Bool
  | [], _ => true
  | _ :: _, [] => false
  | a :: as, b :: bs => (a == b) && startsWithChars as bs

/-- Does `hay` contain `needle` as a contiguous substring?  Models Python's
`needle in str(e)`. -/
def hasSubChars (needle : List Char) : List Char → Bool
  | [] => startsWithChars needle []
  | c :: rest => startsWithChars needle (c :: rest) || hasSubChars needle rest

/-- Python `sub in s` on strings. -/
def strContains (s sub : String) : Bool := hasSubChars sub.toList s.toList

/-- The tuple of retriable exception classes passed to `_is_nested_instance`
by `is_retriable` (api.py lines 118-121). -/
def retriableEtypes : List ExcClass :=
  [ExcClass.DBDeadlock, ExcClass.StaleDataError, ExcClass.DBConnectionError,
   ExcClass.DBDuplicateEntry, ExcClass.RetryRequest,
   ExcClass.NeutronDbObjectDuplicateEntry]

/-- `is_retriable(e)` from api.py lines 110-124. -/
def is_retriable (e : Exc) : Bool :=
  if e.retryExceeded then false
  else if _is_nested_instance e retriableEtypes then true
  else _is_nested_instance e [ExcClass.DBError] && strContains e.strRep "1305"

/-- `MAX_RETRIES = 20` (api.py line 39). -/
def MAX_RETRIES : Nat := 20

/-- `setattr(e, '_RETRY_EXCEEDED', True)`: the same exception value with the
flag set; class, message and inner exceptions are untouched. -/
def setRetryExceeded : Exc → Exc
  | .mk cls _ s innerExc inners => .mk cls true s innerExc inners

/-- The effect of `_tag_retriables_as_unretriable` (api.py lines 127-141) on
the outcome of the wrapped call: a normal return is passed through; an
exception that `is_retriable` currently accepts is re-raised with the
`_RETRY_EXCEEDED` flag set, any other exception is re-raised unchanged. -/
def _tag_retriables_as_unretriable (r : Except Exc α) : Except Exc α :=
  match r with
  | .ok a => .ok a
  | .error e => .error (if is_retriable e then setRetryExceeded e else e)

/-- Modelled from the spec: the bounded retry loop of oslo_db's
`wrap_db_retry` (an external dependency, not part of this repository's
sources).  The spec, section 4.3: "up to a fixed maximum of 20 attempts,
exponential-ish backoff starting at 0.5 time-units and increasing each
attempt, gated by the Error Classifier".  A unit of work is a function from
the attempt index to its outcome; `retryRun checker f fuel attempt` makes
attempt `attempt`, and on a failure that `checker` accepts makes up to
`fuel` further attempts; backoff sleeping has no observable effect here and
is omitted. -/
def retryRun (checker : Exc → Bool) (f : Nat → Except Exc α) :
    Nat → Nat → Except Exc α
  | 0, attempt => f attempt
  | fuel + 1, attempt =>
    match f attempt with
    | .ok a => .ok a
    | .error e =>
      if checker e then retryRun checker f fuel (attempt + 1) else .error e

/-- Modelled from the spec: `oslo_db_api.wrap_db_retry(max_retries=...,
exception_checker=...)` applied to a unit of work — at most `max_retries`
attempts in total, retrying exactly while the checker accepts the raised
exception. -/
def wrap_db_retry (max_retries : Nat) (checker : Exc → Bool)
    (f : Nat → Except Exc α) : Except Exc α :=
  retryRun checker f (max_retries - 1) 0

/-- `retry_db_errors` (api.py lines 157-184) in terms of outcomes:
the innermost wrapper copies container arguments and calls `f`, re-raising
any exception unchanged (the `LOG.debug` call has no observable effect);
`_retry_db_errors` is `wrap_db_retry` with `MAX_RETRIES` and `is_retriable`;
`_tag_retriables_as_unretriable` is the outermost layer.  Argument copying
is modelled separately by `attemptArgs` below; here a unit of work is its
outcome as a function of the attempt index. -/
def retry_db_errors (f : Nat → Except Exc α) : Except Exc α :=
  _tag_retriables_as_unretriable (wrap_db_retry MAX_RETRIES is_retriable f)

/-- A SQLAlchemy session as far as the retry gate can observe it. -/
structure DbSession where
  is_active : Bool
deriving DecidableEq, Repr

/-- A request context: carries the session the gate inspects. -/
structure PyContext where
  session : DbSession
deriving DecidableEq, Repr

/-- Wrap-time lookup in `retry_if_session_inactive` (api.py line 218):
`p_util.getargspec(f).args.index(context_var_name)`; a missing name raises
`RuntimeError` immediately (modelled as `Except.error`). -/
def ctxArgIndex (argNames : List String) (context_var_name : String) :
    Except String Nat :=
  match argNames.indexOf? context_var_name with
  | some i => .ok i
  | none => .error "Could not find position of var"

/-- Call-time context lookup (api.py lines 228-231): the keyword argument
named `context_var_name` if present, else the positional argument at the
index found at wrap time. -/
def lookupCtx (context_var_name : String) (ctx_arg_index : Nat)
    (args : List PyContext) (kwargs : List (String × PyContext)) :
    Option PyContext :=
  match kwargs.lookup context_var_name with
  | some c => some c
  | none => args.get? ctx_arg_index

/-- The call-time dispatch of the wrapper built by `retry_if_session_inactive`
(api.py lines 225-233): locate the context; if its session is active call
the unwrapped function once (`f 0`), otherwise call the
`retry_db_errors`-wrapped version.  `none` models the `IndexError`/`KeyError`
when no context argument is present at all. -/
def retry_if_session_inactive_call (context_var_name : String)
    (ctx_arg_index : Nat) (args : List PyContext)
    (kwargs : List (String × PyContext)) (f : Nat → Except Exc α) :
    Option (Except Exc α) :=
  match lookupCtx context_var_name ctx_arg_index args kwargs with
  | none => none
  | some context =>
    some (if context.session.is_active then f 0 else retry_db_errors f)

/-- `db_exc.RetryRequest(e)`: a fresh `RetryRequest` exception carrying the
original exception (`inner_exc`, and chained as the raise's cause). -/
def retryRequestOf (e : Exc) : Exc :=
  .mk ExcClass.RetryRequest false "" (some e) []

/-- `exc_to_retry(etypes)` (api.py lines 238-253) as a transformer on the
outcome of the `yield`ed body: an exception that `_is_nested_instance`
matches against `etypes` is replaced by `db_exc.RetryRequest(e)`; any other
exception, and any normal result, passes through unchanged. -/
def exc_to_retry (etypes : List ExcClass) (body : Except Exc α) :
    Except Exc α :=
  match body with
  | .ok a => .ok a
  | .error e =>
    if _is_nested_instance e etypes then .error (retryRequestOf e)
    else .error e

/-! ## Event registry (api.py lines 260-298) -/

/-- The state the event registry operates on: `listeners` are the
subscriptions SQLAlchemy's `event` framework currently holds (the external
collaborator's state), `registered` is the module-level
`_REGISTERED_SQLA_EVENTS` list.  A subscription (the `args` tuple) is
modelled as a `Nat`. -/
structure EventState where
  listeners : List Nat
  registered : List Nat
deriving DecidableEq, Repr

/-- `sqla_listen(*args)` (api.py lines 263-274): `event.listen(*args)` then
append `args` to `_REGISTERED_SQLA_EVENTS`. -/
def sqla_listen (s : EventState) (x : Nat) : EventState :=
  { listeners := s.listeners ++ [x], registered := s.registered ++ [x] }

/-- `event.remove(*args)`: removes the subscription, raising
`InvalidRequestError` when it was never registered with the event
framework. -/
def event_remove (l : List Nat) (x : Nat) : Except String (List Nat) :=
  if x ∈ l then .ok (l.erase x) else .error "InvalidRequestError"

/-- Python's `list.remove(x)`: removes the first occurrence, raising
`ValueError` when `x` is not in the list. -/
def pyListRemove (l : List Nat) (x : Nat) : Except String (List Nat) :=
  if x ∈ l then .ok (l.erase x) else .error "ValueError"

/-- `sqla_remove(*args)` (api.py lines 277-284): `event.remove(*args)` then
`_REGISTERED_SQLA_EVENTS.remove(args)`; either step raises when the
subscription is not found. -/
def sqla_remove (s : EventState) (x : Nat) : Except String EventState :=
  match event_remove s.listeners x with
  | .error m => .error m
  | .ok ls =>
    match pyListRemove s.registered x with
    | .error m => .error m
    | .ok rs => .ok { listeners := ls, registered := rs }

/-- `sqla_remove_all()` (api.py lines 287-298): for each recorded
subscription call `event.remove`, swallowing `InvalidRequestError`
("already removed"), then clear `_REGISTERED_SQLA_EVENTS`. -/
def sqla_remove_all (s : EventState) : EventState :=
  { listeners :=
      s.registered.foldl
        (fun ls x => match event_remove ls x with
          | .ok ls2 => ls2
          | .error _ => ls)
        s.listeners,
    registered := [] }

/-! ## Transaction context manager singleton (api.py lines 43-64) -/

/-- An `enginefacade` transaction context: `ctxId` is the object's identity
(which `transaction_context()` call created it), `configureCount` how many
times `.configure(...)` has run on it. -/
structure CtxManager where
  ctxId : Nat
  configureCount : Nat
deriving DecidableEq, Repr

/-- The module-level mutable state read by `get_context_manager`:
`_CTX_MANAGER` (initially `None`) and an allocation counter giving fresh
object identities. -/
structure ModuleState where
  ctxManager : Option CtxManager
  nextId : Nat
deriving DecidableEq, Repr

/-- `enginefacade.transaction_context()`: allocates a fresh, unconfigured
context object. -/
def transaction_context (s : ModuleState) : CtxManager × ModuleState :=
  (⟨s.nextId, 0⟩, { s with nextId := s.nextId + 1 })

/-- `ctx.configure(sqlite_fk=True, flush_on_subtransaction=True)`:
configuration is applied once more to the object. -/
def ctxConfigure (m : CtxManager) : CtxManager :=
  { m with configureCount := m.configureCount + 1 }

/-- `_create_context_manager()` (api.py lines 46-53), body of the
lock-guarded creator: construct and configure only when `_CTX_MANAGER` is
still `None`, then return it. -/
def _create_context_manager (s : ModuleState) : CtxManager × ModuleState :=
  match s.ctxManager with
  | some m => (m, s)
  | none =>
    let p := transaction_context s
    let m := ctxConfigure p.1
    (m, { p.2 with ctxManager := some m })

/-- `get_context_manager()` (api.py lines 56-64). -/
def get_context_manager (s : ModuleState) : CtxManager × ModuleState :=
  match s.ctxManager with
  | some m => (m, s)
  | none => _create_context_manager s

/-! ## Defensive argument copying (api.py lines 144-146, 170-184)

Python object identity is modelled by a heap-allocation counter: every
object carries the address (`oid`) it lives at, and `copy.deepcopy`
allocates fresh addresses, so a deep copy's `oid` differs from the `oid` of
every object already alive.  `fresh` threads the allocation counter through
the successive attempts the retry loop makes. -/

/-- The shapes of a Python argument `_copy_if_lds` distinguishes. -/
inductive PyKind : Type where
  | pylist
  | pydict
  | pyset
  | pyother
deriving DecidableEq, Repr

/-- A Python object as seen by `_copy_if_lds`: its identity and its kind. -/
structure PyObj where
  oid : Nat
  kind : PyKind
deriving DecidableEq, Repr

/-- `isinstance(item, (list, dict, set))`. -/
def isLds (o : PyObj) : Bool :=
  match o.kind with
  | .pylist => true
  | .pydict => true
  | .pyset => true
  | .pyother => false

/-- `copy.deepcopy(item)`: a structurally equal object at a fresh address. -/
def deepcopy (o : PyObj) (fresh : Nat) : PyObj × Nat :=
  (⟨fresh, o.kind⟩, fresh + 1)

/-- `_copy_if_lds(item)` (api.py lines 144-146): deep-copy lists/dicts/sets,
leave everything else alone. -/
def _copy_if_lds (o : PyObj) (fresh : Nat) : PyObj × Nat :=
  if isLds o then deepcopy o fresh else (o, fresh)

/-- `[_copy_if_lds(a) for a in args]` (api.py line 177), threading the
allocation counter left to right. -/
def copyArgs : List PyObj → Nat → List PyObj × Nat
  | [], fresh => ([], fresh)
  | a :: rest, fresh =>
    let p := _copy_if_lds a fresh
    let q := copyArgs rest p.2
    (p.1 :: q.1, q.2)

/-- The allocation counter at the start of attempt `n` of the retried unit
of work (attempt 0 starts at `fresh0`, and each attempt's copies consume
addresses). -/
def attemptFresh (args : List PyObj) (fresh0 : Nat) : Nat → Nat
  | 0 => fresh0
  | n + 1 => (copyArgs args (attemptFresh args fresh0 n)).2

/-- The argument list the wrapped function receives on attempt `n`
(`dup_args`): each attempt re-runs `_copy_if_lds` over the caller's
arguments. -/
def attemptArgs (args : List PyObj) (fresh0 : Nat) (n : Nat) : List PyObj :=
  (copyArgs args (attemptFresh args fresh0 n)).1

/-! ## Commit-time relationship materializer (api.py lines 301-351)

Entities are modelled as values: `populated` is the set of attribute keys
present in `state.dict`, `loadable` the keys a forced lazy load (the
`getattr`) is able to populate.  Python mutates entities in place;
`_load_one_to_manys` here returns the updated entity values alongside the
updated session. -/

/-- One entry of `state.mapper.relationships`: its attribute key and its
`lazy` loading strategy. -/
structure RelAttr where
  key : String
  lazy : String
deriving DecidableEq, Repr

/-- `relationship_attr.lazy in ('joined', 'subquery')`. -/
def isEagerRel (r : RelAttr) : Bool :=
  r.lazy == "joined" || r.lazy == "subquery"

/-- A newly created entity: identity, mapper relationships, the keys already
in `state.dict`, and the keys a forced load can bring into `state.dict`. -/
structure Entity where
  eid : Nat
  rels : List RelAttr
  populated : List String
  loadable : List String
deriving DecidableEq, Repr

/-- The loop over `state.mapper.relationships` (api.py lines 341-351): skip
non-eager relationships; skip keys already in `state.dict`; otherwise
`getattr` forces the load — if the key is still not in `state.dict`
afterwards, raise `AssertionError`. -/
def loadEagerRels : List RelAttr → Entity → Except String Entity
  | [], ent => .ok ent
  | r :: rest, ent =>
    if isEagerRel r then
      if r.key ∈ ent.populated then loadEagerRels rest ent
      else if r.key ∈ ent.loadable then
        loadEagerRels rest { ent with populated := r.key :: ent.populated }
      else
        .error ("Relationship " ++ r.key ++
          " attributes must be loaded in db object")
    else loadEagerRels rest ent

/-- Materialize one captured entity: force-load each of its eager
relationship attributes (api.py lines 327-351). -/
def materializeEntity (ent : Entity) : Except String Entity :=
  loadEagerRels ent.rels ent

/-- The session state the materializer hooks observe: `newObjs` is
`session.new` (pending, not yet flushed), `loadRels` the accumulated
`session.info['_load_rels']` weak set, `attachedIds` the identities of
objects currently in the session, `nested` whether
`session.transaction.nested`. -/
structure MatSession where
  newObjs : List Entity
  loadRels : List Entity
  attachedIds : List Nat
  nested : Bool
deriving DecidableEq, Repr

/-- `_add_to_rel_load_list(session)` (api.py lines 301-305), the
`after_flush` hook: add `session.new` to the `_load_rels` accumulator. -/
def _add_to_rel_load_list (s : MatSession) : MatSession :=
  { s with loadRels := s.loadRels ++ s.newObjs }

/-- `session.flush()`: fires the `after_flush` hook while `session.new`
still holds the pending objects, after which those objects are persistent
(attached) and `session.new` is empty. -/
def sessionFlush (s : MatSession) : MatSession :=
  let s1 := _add_to_rel_load_list s
  { s1 with
    newObjs := [],
    attachedIds := s1.attachedIds ++ s.newObjs.map Entity.eid }

/-- The flush `_load_one_to_manys` forces when the session still has pending
new objects (api.py lines 315-316). -/
def beforeCommitFlush (s : MatSession) : MatSession :=
  if s.newObjs.isEmpty then s else sessionFlush s

/-- The drain loop of `_load_one_to_manys` (api.py lines 322-351): each
captured entity still in the session is materialized; detached entities are
skipped untouched; an `AssertionError` aborts.  Returns the final states of
the captured entities, positionally. -/
def processLoadList : List Entity → List Nat → Except String (List Entity)
  | [], _ => .ok []
  | ent :: rest, att =>
    if ent.eid ∈ att then
      match materializeEntity ent with
      | .error m => .error m
      | .ok ent2 =>
        match processLoadList rest att with
        | .error m => .error m
        | .ok l => .ok (ent2 :: l)
    else
      match processLoadList rest att with
      | .error m => .error m
      | .ok l => .ok (ent :: l)

/-- `_load_one_to_manys(session)` (api.py lines 308-351), the
`before_commit` hook: flush pending objects first; on a nested (savepoint)
transaction do nothing (the accumulator is kept for the final commit);
otherwise pop the accumulator and materialize every still-attached captured
entity.  The result pairs the session after the hook with the final states
of the drained entities (empty when nothing was drained). -/
def _load_one_to_manys (s : MatSession) :
    Except String (MatSession × List Entity) :=
  let s1 := beforeCommitFlush s
  if s1.nested then .ok (s1, [])
  else
    match processLoadList s1.loadRels s1.attachedIds with
    | .error m => .error m
    | .ok ents => .ok ({ s1 with loadRels := [] }, ents)

/-- An entity has every eagerly-configured relationship attribute
populated. -/
def eagerPopulated (ent : Entity) : Bool :=
  ent.rels.all (fun r => !isEagerRel r || decide (r.key ∈ ent.populated))

/-- An entity on which the forced load cannot succeed: some eager
relationship attribute is neither populated nor loadable. -/
def entityLoadFails (ent : Entity) : Bool :=
  ent.rels.any (fun r =>
    isEagerRel r && !decide (r.key ∈ ent.populated) &&
      !decide (r.key ∈ ent.loadable))

/-! ## Spec-side wrapping relation and concrete example values -/

/-- The specification's notion of transitively wrapping a transient kind
(spec sections 3 and 4.1, claim C2): an exception is retriable-by-wrapping
when it is an instance of one of the transient kinds, or is a "multiple
exceptions" aggregate with some retriable inner exception, or is a generic
database-error wrapper whose single inner cause is retriable.  This is
written from the spec's words, to be compared with the code's
`_is_nested_instance`. -/
inductive WrapsRetriable : Exc → Prop where
  | direct (e : Exc) :
      pyIsInstance e retriableEtypes = true → WrapsRetriable e
  | aggregate (e i : Exc) :
      e.cls = ExcClass.MultipleExceptions →
      i ∈ e.innerExceptions → WrapsRetriable i → WrapsRetriable e
  | wrapper (e i : Exc) :
      isSubclassOf e.cls ExcClass.DBError = true →
      e.innerException = some i → WrapsRetriable i → WrapsRetriable e

/-- A bare `DBDeadlock` exception. -/
def exDeadlock : Exc := .mk ExcClass.DBDeadlock false "deadlock detected" none []

/-- A `DBDeadlock` whose retry budget has been exhausted. -/
def exDeadlockExceeded : Exc :=
  .mk ExcClass.DBDeadlock true "deadlock detected" none []

/-- A bare `StaleDataError`. -/
def exStale : Exc := .mk ExcClass.StaleDataError false "stale data" none []

/-- A generic `DBError` wrapping a `StaleDataError` as its inner cause. -/
def exWrapStale : Exc := .mk ExcClass.DBError false "db error" (some exStale) []

/-- An unrelated exception. -/
def exOther : Exc := .mk ExcClass.OtherError false "boom" none []

/-- A `MultipleExceptions` aggregate whose second inner exception is the
`DBError`-wrapped `StaleDataError`. -/
def exAgg : Exc :=
  .mk ExcClass.MultipleExceptions false "multiple" none [exOther, exWrapStale]

/-- A generic `DBError` with no structured transient kind inside but whose
message carries the MySQL error code 1305 (savepoint lost to a deadlock). -/
def exSavepoint : Exc :=
  .mk ExcClass.DBError false "(1305, 'SAVEPOINT sp1 does not exist')" none []

/-- A generic `DBError` matching neither a structured kind nor the 1305
heuristic. -/
def exPlainDbError : Exc :=
  .mk ExcClass.DBError false "syntax error" none []

/-- A session already inside an active transaction. -/
def ctxActive : PyContext := ⟨⟨true⟩⟩

/-- A session not inside an active transaction. -/
def ctxInactive : PyContext := ⟨⟨false⟩⟩

/-- A materializer session sitting inside a nested (savepoint) transaction,
with one captured entity. -/
def matNested : MatSession :=
  ⟨[], [⟨7, [⟨"ports", "joined"⟩], [], ["ports"]⟩], [7], true⟩

/-- A materializer session on an outermost transaction with one attached
captured entity whose eager relationship is loadable. -/
def matOuter : MatSession :=
  ⟨[], [⟨7, [⟨"ports", "joined"⟩], [], ["ports"]⟩], [7], false⟩

/-! ## Theorems -/

/-- Helper: the classifier rejects any flagged exception (shared by several
claim proofs). -/
theorem is_retriable_flagged (e : Exc) (h : e.retryExceeded = true) :
    is_retriable e = false := by
  simp [is_retriable, h]

/-- C1: every exception carrying the `_RETRY_EXCEEDED` flag is classified
non-retriable by `is_retriable`, regardless of its class or of what it
wraps. -/
theorem is_retriable_false_of_retry_exceeded (e : Exc)
    (h : e.retryExceeded = true) : is_retriable e = false := by
  simp [is_retriable, h]

/-- C1 witness: a flagged deadlock is not retriable. -/
theorem is_retriable_false_of_retry_exceeded_witness :
    exDeadlockExceeded.retryExceeded = true ∧
      is_retriable exDeadlockExceeded = false :=
  ⟨rfl, is_retriable_false_of_retry_exceeded exDeadlockExceeded rfl⟩

/-- Helper: a member of the inner-exception list that nested-matches makes
the whole list nested-match. -/
theorem nestedAnyList_of_mem (l : List Exc) (i : Exc) (etypes : List ExcClass)
    (hm : i ∈ l) (hi : _is_nested_instance i etypes = true) :
    nestedAnyList l etypes = true := by
  induction l with
  | nil => cases hm
  | cons a rest ih =>
    rcases List.mem_cons.mp hm with h | h
    · subst h
      simp [nestedAnyList, hi]
    · simp [nestedAnyList, ih h]

/-- Helper: the spec's wrapping relation implies the code's
`_is_nested_instance` on the tuple of retriable classes. -/
theorem nested_of_wrapsRetriable (e : Exc) (h : WrapsRetriable e) :
    _is_nested_instance e retriableEtypes = true := by
  induction h with
  | direct e hd =>
    cases e with
    | mk cls rex s innerExc inners =>
      simp only [pyIsInstance, Exc.cls] at hd
      simp [_is_nested_instance, hd]
  | aggregate e i hcls hm hw ih =>
    cases e with
    | mk cls rex s innerExc inners =>
      simp only [Exc.cls] at hcls
      subst hcls
      simp only [Exc.innerExceptions] at hm
      have h1 : retriableEtypes.any
          (fun t => isSubclassOf ExcClass.MultipleExceptions t) = false := by
        decide
      have h2 : isSubclassOf ExcClass.MultipleExceptions
          ExcClass.MultipleExceptions = true := by decide
      simp only [_is_nested_instance, h1, h2, Bool.false_eq_true,
        if_false, if_true]
      exact nestedAnyList_of_mem inners i retriableEtypes hm ih
  | wrapper e i hsub hinner hw ih =>
    cases e with
    | mk cls rex s innerExc inners =>
      simp only [Exc.cls] at hsub
      simp only [Exc.innerException] at hinner
      subst hinner
      by_cases hfirst :
          retriableEtypes.any (fun t => isSubclassOf cls t) = true
      · simp [_is_nested_instance, hfirst]
      · have hnm : isSubclassOf cls ExcClass.MultipleExceptions = false := by
          revert hsub
          cases cls <;> simp [isSubclassOf]
        simp [_is_nested_instance, hfirst, hnm, hsub, nestedAnyOpt, ih]

/-- C2: an unflagged exception that is, or transitively wraps — through the
"multiple exceptions" aggregate shape or the generic database-error wrapper
shape, at any nesting depth — an instance of one of the transient kinds
(deadlock, stale data, connection loss, duplicate unique key, explicit
retry request, domain duplicate entry) is classified retriable. -/
theorem is_retriable_of_wrapsRetriable (e : Exc)
    (hflag : e.retryExceeded = false) (h : WrapsRetriable e) :
    is_retriable e = true := by
  simp [is_retriable, hflag, nested_of_wrapsRetriable e h]

/-- C2 witness: a "multiple exceptions" aggregate holding an unrelated
exception and a `DBError` wrapping a `StaleDataError` is retriable. -/
theorem is_retriable_of_wrapsRetriable_witness :
    is_retriable exAgg = true :=
  is_retriable_of_wrapsRetriable exAgg rfl
    (WrapsRetriable.aggregate exAgg exWrapStale rfl
      (by simp [exAgg, Exc.innerExceptions])
      (WrapsRetriable.wrapper exWrapStale exStale (by decide) rfl
        (WrapsRetriable.direct exStale (by decide))))

/-- C3: for an unflagged exception matching no structured transient kind,
`is_retriable` returns exactly the fallback heuristic — true when the
exception is (or transitively wraps) a generic database error and its
string representation contains "1305", false otherwise. -/
theorem is_retriable_fallback (e : Exc) (hflag : e.retryExceeded = false)
    (hstruct : _is_nested_instance e retriableEtypes = false) :
    is_retriable e =
      (_is_nested_instance e [ExcClass.DBError] &&
        strContains e.strRep "1305") := by
  simp [is_retriable, hflag, hstruct]

/-- C3 witness: a plain `DBError` whose message carries "1305" is
retriable, and the same exception with an unrelated message is not. -/
theorem is_retriable_fallback_witness :
    is_retriable exSavepoint = true ∧ is_retriable exPlainDbError = false :=
  ⟨by rw [is_retriable_fallback exSavepoint rfl (by decide)]; decide,
   by rw [is_retriable_fallback exPlainDbError rfl (by decide)]; decide⟩

/-- Helper: a persistently failing, checker-accepted unit of work drives the
retry loop through all its fuel and the loop returns the last failure; only
attempt indices between `attempt` and `attempt + fuel` are ever consulted. -/
theorem retryRun_persistent {α : Type} (e : Exc) (checker : Exc → Bool)
    (hc : checker e = true) (f : Nat → Except Exc α) (fuel attempt : Nat)
    (hf : ∀ i, attempt ≤ i → i ≤ attempt + fuel → f i = .error e) :
    retryRun checker f fuel attempt = .error e := by
  induction fuel generalizing attempt with
  | zero =>
    simp only [retryRun]
    exact hf attempt (Nat.le_refl _) (by omega)
  | succ fuel ih =>
    have h0 : f attempt = .error e := hf attempt (Nat.le_refl _) (by omega)
    simp only [retryRun, h0, hc, if_true]
    exact ih (attempt + 1) (fun i h1 h2 => hf i (by omega) (by omega))

/-- Helper: `retry_db_errors` on a unit of work that fails with the same
retriable exception on each of the first `MAX_RETRIES` attempts returns
that exception flagged as exhausted (shared by the proofs of claims about
the executor and about the session gate). -/
theorem retry_db_errors_persistent {α : Type} (e : Exc)
    (he : is_retriable e = true) (f : Nat → Except Exc α)
    (hf : ∀ i, i < MAX_RETRIES → f i = .error e) :
    retry_db_errors f = .error (setRetryExceeded e) := by
  have hrun : wrap_db_retry MAX_RETRIES is_retriable f = .error e := by
    apply retryRun_persistent e is_retriable he f (MAX_RETRIES - 1) 0
    intro i h1 h2
    exact hf i (by simp [MAX_RETRIES] at h2 ⊢; omega)
  simp [retry_db_errors, hrun, _tag_retriables_as_unretriable, he]

/-- Helper: flagging preserves the exception's class. -/
theorem setRetryExceeded_cls (e : Exc) : (setRetryExceeded e).cls = e.cls := by
  cases e
  rfl

/-- Helper: flagging sets the `_RETRY_EXCEEDED` attribute. -/
theorem setRetryExceeded_flag (e : Exc) :
    (setRetryExceeded e).retryExceeded = true := by
  cases e
  rfl

/-- C4: a unit of work wrapped by `retry_db_errors` that persistently
raises a retriable exception is attempted at most `MAX_RETRIES = 20` times
(the outcome is already determined by the first 20 attempts); the final
exception propagates with its class unchanged and the `_RETRY_EXCEEDED`
flag set, so the classifier — and hence any outer retry wrapper — no longer
treats it as retriable. -/
theorem retry_db_errors_exhaustion {α : Type} (e : Exc)
    (he : is_retriable e = true) (f : Nat → Except Exc α)
    (hf : ∀ i, i < MAX_RETRIES → f i = .error e) :
    retry_db_errors f = .error (setRetryExceeded e)
    ∧ (setRetryExceeded e).cls = e.cls
    ∧ (setRetryExceeded e).retryExceeded = true
    ∧ is_retriable (setRetryExceeded e) = false :=
  ⟨retry_db_errors_persistent e he f hf, setRetryExceeded_cls e,
   setRetryExceeded_flag e,
   is_retriable_flagged _ (setRetryExceeded_flag e)⟩

/-- C4 witness: exhausting the budget on a persistent deadlock yields the
deadlock flagged as exhausted and no longer retriable. -/
theorem retry_db_errors_exhaustion_witness :
    retry_db_errors (fun _ => (Except.error exDeadlock : Except Exc Unit))
      = .error (setRetryExceeded exDeadlock)
    ∧ (setRetryExceeded exDeadlock).cls = exDeadlock.cls
    ∧ (setRetryExceeded exDeadlock).retryExceeded = true
    ∧ is_retriable (setRetryExceeded exDeadlock) = false :=
  retry_db_errors_exhaustion exDeadlock (by decide)
    (fun _ => (Except.error exDeadlock : Except Exc Unit))
    (fun i _ => rfl)

/-- C6: the wrapper built by `retry_if_session_inactive` looks up the
context argument (keyword first, else positional); when the context's
session is active it calls the unwrapped function exactly once — even a
persistently raised transient error propagates after the single call,
unflagged and without any retry — and when the session is inactive it calls
the `retry_db_errors`-wrapped version, which retries up to the bound and
returns the exception flagged as exhausted. -/
theorem retry_if_session_inactive_gate {α : Type} (context_var_name : String)
    (ctx_arg_index : Nat) (args : List PyContext)
    (kwargs : List (String × PyContext)) (context : PyContext)
    (hctx : lookupCtx context_var_name ctx_arg_index args kwargs
      = some context)
    (e : Exc) (he : is_retriable e = true) (f : Nat → Except Exc α)
    (hf : ∀ i, i < MAX_RETRIES → f i = .error e) :
    (context.session.is_active = true →
      retry_if_session_inactive_call context_var_name ctx_arg_index args
        kwargs f = some (.error e))
    ∧ (context.session.is_active = false →
      retry_if_session_inactive_call context_var_name ctx_arg_index args
        kwargs f = some (.error (setRetryExceeded e))) := by
  constructor
  · intro hact
    have h0 : f 0 = .error e := hf 0 (by simp [MAX_RETRIES])
    simp [retry_if_session_inactive_call, hctx, hact, h0]
  · intro hact
    simp [retry_if_session_inactive_call, hctx, hact,
      retry_db_errors_persistent e he f hf]

/-- C6 witness: with an inactive session located positionally, a persistent
deadlock is retried to exhaustion; the active-session conjunct is vacuous
at this input. -/
theorem retry_if_session_inactive_gate_witness :
    (ctxInactive.session.is_active = true →
      retry_if_session_inactive_call "context" 0 [ctxInactive] []
        (fun _ => (Except.error exDeadlock : Except Exc Unit))
        = some (.error exDeadlock))
    ∧ (ctxInactive.session.is_active = false →
      retry_if_session_inactive_call "context" 0 [ctxInactive] []
        (fun _ => (Except.error exDeadlock : Except Exc Unit))
        = some (.error (setRetryExceeded exDeadlock))) :=
  retry_if_session_inactive_gate "context" 0 [ctxInactive] [] ctxInactive
    rfl exDeadlock (by decide)
    (fun _ => (Except.error exDeadlock : Except Exc Unit)) (fun i _ => rfl)

/-- C8: inside `exc_to_retry`, an exception that is or transitively wraps an
instance of the caller-supplied kinds is replaced by a `RetryRequest`
carrying the original as its inner cause; any non-matching exception
propagates unchanged. -/
theorem exc_to_retry_converts {α : Type} (etypes : List ExcClass) (e : Exc) :
    (_is_nested_instance e etypes = true →
      exc_to_retry (α := α) etypes (.error e) = .error (retryRequestOf e)
      ∧ (retryRequestOf e).cls = ExcClass.RetryRequest
      ∧ (retryRequestOf e).innerException = some e)
    ∧ (_is_nested_instance e etypes = false →
      exc_to_retry (α := α) etypes (.error e) = .error e) := by
  constructor
  · intro h
    exact ⟨by simp [exc_to_retry, h], rfl, rfl⟩
  · intro h
    simp [exc_to_retry, h]

/-- C8 witness: with kinds `[StaleDataError]`, a `DBError` wrapping a
`StaleDataError` is converted to a `RetryRequest` chained to it, while an
unrelated exception passes through unchanged. -/
theorem exc_to_retry_converts_witness :
    (exc_to_retry (α := Unit) [ExcClass.StaleDataError] (.error exWrapStale)
        = .error (retryRequestOf exWrapStale)
      ∧ (retryRequestOf exWrapStale).cls = ExcClass.RetryRequest
      ∧ (retryRequestOf exWrapStale).innerException = some exWrapStale)
    ∧ exc_to_retry (α := Unit) [ExcClass.StaleDataError] (.error exOther)
        = .error exOther :=
  ⟨(exc_to_retry_converts [ExcClass.StaleDataError] exWrapStale).1 (by decide),
   (exc_to_retry_converts [ExcClass.StaleDataError] exOther).2 (by decide)⟩

/-- Helper: a single `_copy_if_lds` never decreases the allocation
counter. -/
theorem copy_if_lds_fresh_le (o : PyObj) (fresh : Nat) :
    fresh ≤ (_copy_if_lds o fresh).2 := by
  by_cases h : isLds o = true
  · simp [_copy_if_lds, h, deepcopy]
  · simp [_copy_if_lds, h]

/-- Helper: copying an argument list never decreases the allocation
counter. -/
theorem copyArgs_fresh_le (args : List PyObj) (fresh : Nat) :
    fresh ≤ (copyArgs args fresh).2 := by
  induction args generalizing fresh with
  | nil => simp [copyArgs]
  | cons a rest ih =>
    simp only [copyArgs]
    exact Nat.le_trans (copy_if_lds_fresh_le a fresh)
      (ih (_copy_if_lds a fresh).2)

/-- Helper: position-wise description of one pass of `copyArgs`: a
container argument comes out as a same-kind object at an address in the
pass's allocation window; any other argument comes out as the very same
object. -/
theorem copyArgs_get? (args : List PyObj) (fresh j : Nat) (a : PyObj)
    (hja : args.get? j = some a) :
    ∃ c, (copyArgs args fresh).1.get? j = some c
      ∧ (isLds a = true →
          c.kind = a.kind ∧ fresh ≤ c.oid ∧ c.oid < (copyArgs args fresh).2)
      ∧ (isLds a = false → c = a) := by
  induction args generalizing fresh j with
  | nil => simp at hja
  | cons b rest ih =>
    cases j with
    | zero =>
      simp only [List.get?] at hja
      cases hja
      by_cases h : isLds a = true
      · refine ⟨⟨fresh, a.kind⟩, ?_, ?_, ?_⟩
        · simp [copyArgs, _copy_if_lds, h, deepcopy]
        · intro _
          refine ⟨rfl, Nat.le_refl _, ?_⟩
          have h1 : (copyArgs (a :: rest) fresh).2
              = (copyArgs rest (fresh + 1)).2 := by
            simp [copyArgs, _copy_if_lds, h, deepcopy]
          have h2 := copyArgs_fresh_le rest (fresh + 1)
          have h3 : (⟨fresh, a.kind⟩ : PyObj).oid = fresh := rfl
          omega
        · intro hx
          rw [h] at hx
          cases hx
      · have h0 : isLds a = false := by
          cases hl : isLds a
          · rfl
          · exact absurd hl h
        refine ⟨a, ?_, ?_, fun _ => rfl⟩
        · simp [copyArgs, _copy_if_lds, h0]
        · intro hx
          rw [h0] at hx
          cases hx
    | succ j =>
      simp only [List.get?] at hja
      obtain ⟨c, hc1, hc2, hc3⟩ := ih (_copy_if_lds b fresh).2 j hja
      refine ⟨c, ?_, ?_, hc3⟩
      · simpa [copyArgs] using hc1
      · intro h
        obtain ⟨hk, hlo, hhi⟩ := hc2 h
        refine ⟨hk, Nat.le_trans (copy_if_lds_fresh_le b fresh) hlo, ?_⟩
        simpa [copyArgs] using hhi

/-- Helper: the allocation counter is monotone along attempts. -/
theorem attemptFresh_le_succ (args : List PyObj) (fresh0 n : Nat) :
    attemptFresh args fresh0 n ≤ attemptFresh args fresh0 (n + 1) := by
  simpa [attemptFresh] using
    copyArgs_fresh_le args (attemptFresh args fresh0 n)

/-- Helper: the allocation counter is monotone between any two attempts. -/
theorem attemptFresh_mono (args : List PyObj) (fresh0 : Nat) (m n : Nat)
    (h : m ≤ n) : attemptFresh args fresh0 m ≤ attemptFresh args fresh0 n := by
  induction n with
  | zero =>
    have hm : m = 0 := Nat.le_zero.mp h
    simp [hm]
  | succ n ih =>
    rcases Nat.lt_or_ge m (n + 1) with h1 | h1
    · exact Nat.le_trans (ih (Nat.lt_succ_iff.mp h1))
        (attemptFresh_le_succ args fresh0 n)
    · have hm : m = n + 1 := Nat.le_antisymm h h1
      simp [hm]

/-- Helper: the caller's addresses stay below every attempt's allocation
window. -/
theorem fresh0_le_attemptFresh (args : List PyObj) (fresh0 n : Nat) :
    fresh0 ≤ attemptFresh args fresh0 n :=
  attemptFresh_mono args fresh0 0 n (Nat.zero_le n)

/-- C5: on every pair of attempts of a unit of work wrapped by
`retry_db_errors`, the argument actually passed at each position — `cm` on
attempt `m`, `cn` on a later attempt `n` — is, for a list/dict/set
argument, a fresh deep copy: same kind but an object identity different
from the caller's argument and from the other attempt's copy; for any other
argument it is the caller's object itself, identical across attempts. -/
theorem retry_db_errors_arg_copy (args : List PyObj) (fresh0 : Nat)
    (hfresh : ∀ a ∈ args, a.oid < fresh0) (m n j : Nat) (hmn : m < n)
    (a cm cn : PyObj) (hja : args.get? j = some a)
    (hcm : (attemptArgs args fresh0 m).get? j = some cm)
    (hcn : (attemptArgs args fresh0 n).get? j = some cn) :
    (isLds a = true →
      cm.kind = a.kind ∧ cn.kind = a.kind
      ∧ cm.oid ≠ a.oid ∧ cn.oid ≠ a.oid ∧ cm.oid ≠ cn.oid)
    ∧ (isLds a = false → cm = a ∧ cn = a) := by
  obtain ⟨c1, hc1, hc1l, hc1o⟩ :=
    copyArgs_get? args (attemptFresh args fresh0 m) j a hja
  obtain ⟨c2, hc2, hc2l, hc2o⟩ :=
    copyArgs_get? args (attemptFresh args fresh0 n) j a hja
  have e1 : c1 = cm := by
    have := hc1.symm.trans hcm
    exact Option.some.inj this
  have e2 : c2 = cn := by
    have := hc2.symm.trans hcn
    exact Option.some.inj this
  subst e1
  subst e2
  have hmem : a ∈ args := List.get?_mem hja
  have ha0 : a.oid < fresh0 := hfresh a hmem
  constructor
  · intro h
    obtain ⟨hk1, hlo1, hhi1⟩ := hc1l h
    obtain ⟨hk2, hlo2, hhi2⟩ := hc2l h
    have hw1 : (copyArgs args (attemptFresh args fresh0 m)).2
        = attemptFresh args fresh0 (m + 1) := rfl
    have hmn2 : attemptFresh args fresh0 (m + 1)
        ≤ attemptFresh args fresh0 n :=
      attemptFresh_mono args fresh0 (m + 1) n hmn
    have h0m := fresh0_le_attemptFresh args fresh0 m
    have h0n := fresh0_le_attemptFresh args fresh0 n
    refine ⟨hk1, hk2, by omega, by omega, by omega⟩
  · intro h
    exact ⟨hc1o h, hc2o h⟩

/-- C5 witness: with one list argument at address 0 and one session-like
argument at address 1, attempt 0 receives a fresh list copy at address 2
and attempt 1 another fresh copy at address 3, while the session object is
passed through identically. -/
theorem retry_db_errors_arg_copy_witness :
    ((isLds ⟨0, PyKind.pylist⟩ = true →
      (⟨2, PyKind.pylist⟩ : PyObj).kind = (⟨0, PyKind.pylist⟩ : PyObj).kind
      ∧ (⟨3, PyKind.pylist⟩ : PyObj).kind = (⟨0, PyKind.pylist⟩ : PyObj).kind
      ∧ (⟨2, PyKind.pylist⟩ : PyObj).oid ≠ (⟨0, PyKind.pylist⟩ : PyObj).oid
      ∧ (⟨3, PyKind.pylist⟩ : PyObj).oid ≠ (⟨0, PyKind.pylist⟩ : PyObj).oid
      ∧ (⟨2, PyKind.pylist⟩ : PyObj).oid ≠ (⟨3, PyKind.pylist⟩ : PyObj).oid)
    ∧ (isLds ⟨0, PyKind.pylist⟩ = false →
      (⟨2, PyKind.pylist⟩ : PyObj) = ⟨0, PyKind.pylist⟩
      ∧ (⟨3, PyKind.pylist⟩ : PyObj) = ⟨0, PyKind.pylist⟩))
    ∧ ((isLds ⟨1, PyKind.pyother⟩ = true →
      (⟨1, PyKind.pyother⟩ : PyObj).kind = (⟨1, PyKind.pyother⟩ : PyObj).kind
      ∧ (⟨1, PyKind.pyother⟩ : PyObj).kind = (⟨1, PyKind.pyother⟩ : PyObj).kind
      ∧ (⟨1, PyKind.pyother⟩ : PyObj).oid ≠ (⟨1, PyKind.pyother⟩ : PyObj).oid
      ∧ (⟨1, PyKind.pyother⟩ : PyObj).oid ≠ (⟨1, PyKind.pyother⟩ : PyObj).oid
      ∧ (⟨1, PyKind.pyother⟩ : PyObj).oid ≠ (⟨1, PyKind.pyother⟩ : PyObj).oid)
    ∧ (isLds ⟨1, PyKind.pyother⟩ = false →
      (⟨1, PyKind.pyother⟩ : PyObj) = ⟨1, PyKind.pyother⟩
      ∧ (⟨1, PyKind.pyother⟩ : PyObj) = ⟨1, PyKind.pyother⟩)) :=
  ⟨retry_db_errors_arg_copy [⟨0, PyKind.pylist⟩, ⟨1, PyKind.pyother⟩] 2
      (by decide) 0 1 0 (by decide) ⟨0, PyKind.pylist⟩ ⟨2, PyKind.pylist⟩
      ⟨3, PyKind.pylist⟩ rfl rfl rfl,
   retry_db_errors_arg_copy [⟨0, PyKind.pylist⟩, ⟨1, PyKind.pyother⟩] 2
      (by decide) 0 1 1 (by decide) ⟨1, PyKind.pyother⟩ ⟨1, PyKind.pyother⟩
      ⟨1, PyKind.pyother⟩ rfl rfl rfl⟩

/-- Helper: a successful pass over the relationship list leaves identity,
relationships and loadable keys unchanged, only grows the populated keys,
and ends with every eager relationship key populated. -/
theorem loadEagerRels_ok (rels : List RelAttr) (ent ent2 : Entity)
    (h : loadEagerRels rels ent = .ok ent2) :
    ent2.eid = ent.eid ∧ ent2.rels = ent.rels ∧ ent2.loadable = ent.loadable
    ∧ (∀ k, k ∈ ent.populated → k ∈ ent2.populated)
    ∧ (∀ r ∈ rels, isEagerRel r = true → r.key ∈ ent2.populated) := by
  induction rels generalizing ent with
  | nil =>
    simp only [loadEagerRels, Except.ok.injEq] at h
    subst h
    exact ⟨rfl, rfl, rfl, fun k hk => hk, by simp⟩
  | cons r rest ih =>
    simp only [loadEagerRels] at h
    by_cases he : isEagerRel r = true
    · rw [if_pos he] at h
      by_cases hp : r.key ∈ ent.populated
      · rw [if_pos hp] at h
        obtain ⟨h1, h2, h3, h4, h5⟩ := ih ent h
        refine ⟨h1, h2, h3, h4, ?_⟩
        intro r2 hr2 he2
        rcases List.mem_cons.mp hr2 with h6 | h6
        · subst h6
          exact h4 r2.key hp
        · exact h5 r2 h6 he2
      · rw [if_neg hp] at h
        by_cases hl : r.key ∈ ent.loadable
        · rw [if_pos hl] at h
          obtain ⟨h1, h2, h3, h4, h5⟩ := ih _ h
          refine ⟨h1, h2, h3, ?_, ?_⟩
          · intro k hk
            exact h4 k (List.mem_cons_of_mem _ hk)
          · intro r2 hr2 he2
            rcases List.mem_cons.mp hr2 with h6 | h6
            · subst h6
              exact h4 r2.key (List.mem_cons_self _ _)
            · exact h5 r2 h6 he2
        · rw [if_neg hl] at h
          cases h
    · rw [if_neg he] at h
      obtain ⟨h1, h2, h3, h4, h5⟩ := ih ent h
      refine ⟨h1, h2, h3, h4, ?_⟩
      intro r2 hr2 he2
      rcases List.mem_cons.mp hr2 with h6 | h6
      · subst h6
        exact absurd he2 he
      · exact h5 r2 h6 he2

/-- Helper: a successfully materialized entity has all its eager
relationship attributes populated, with identity and relationships
unchanged. -/
theorem materializeEntity_ok (ent ent2 : Entity)
    (h : materializeEntity ent = .ok ent2) :
    eagerPopulated ent2 = true ∧ ent2.eid = ent.eid ∧ ent2.rels = ent.rels := by
  obtain ⟨h1, h2, h3, h4, h5⟩ := loadEagerRels_ok ent.rels ent ent2 h
  refine ⟨?_, h1, h2⟩
  rw [eagerPopulated, List.all_eq_true]
  intro r hr
  rw [h2] at hr
  by_cases he : isEagerRel r = true
  · simp [he, h5 r hr he]
  · simp only [Bool.not_eq_true] at he
    simp [he]

/-- Helper: an eager relationship key that is neither populated nor
loadable makes the pass fail with an `AssertionError`. -/
theorem loadEagerRels_error (rels : List RelAttr) (ent : Entity)
    (r : RelAttr) (hr : r ∈ rels) (he : isEagerRel r = true)
    (hp : r.key ∉ ent.populated) (hl : r.key ∉ ent.loadable) :
    ∃ m, loadEagerRels rels ent = .error m := by
  induction rels generalizing ent with
  | nil => cases hr
  | cons r0 rest ih =>
    by_cases he0 : isEagerRel r0 = true
    · by_cases hp0 : r0.key ∈ ent.populated
      · have hr2 : r ∈ rest := by
          rcases List.mem_cons.mp hr with h6 | h6
          · subst h6
            exact absurd hp0 hp
          · exact h6
        obtain ⟨m, hm⟩ := ih ent hr2 hp hl
        exact ⟨m, by
          simp only [loadEagerRels, if_pos he0, if_pos hp0]
          exact hm⟩
      · by_cases hl0 : r0.key ∈ ent.loadable
        · have hne : r0.key ≠ r.key := fun hk => hl (hk ▸ hl0)
          have hr2 : r ∈ rest := by
            rcases List.mem_cons.mp hr with h6 | h6
            · subst h6
              exact absurd hl0 hl
            · exact h6
          have hp2 : r.key ∉
              ({ ent with populated := r0.key :: ent.populated } :
                Entity).populated := by
            intro hk
            rcases List.mem_cons.mp hk with h7 | h7
            · exact hne h7.symm
            · exact hp h7
          obtain ⟨m, hm⟩ := ih _ hr2 hp2 hl
          exact ⟨m, by
            simp only [loadEagerRels, if_pos he0, if_neg hp0, if_pos hl0]
            exact hm⟩
        · exact ⟨"Relationship " ++ r0.key ++
            " attributes must be loaded in db object", by
            simp only [loadEagerRels, if_pos he0, if_neg hp0, if_neg hl0]⟩
    · have hr2 : r ∈ rest := by
        rcases List.mem_cons.mp hr with h6 | h6
        · subst h6
          exact absurd he he0
        · exact h6
      obtain ⟨m, hm⟩ := ih ent hr2 hp hl
      exact ⟨m, by
        simp only [loadEagerRels, if_neg he0]
        exact hm⟩

/-- Helper: position-wise description of a successful drain pass: an
attached captured entity is replaced by its materialized state, a detached
one is kept untouched. -/
theorem processLoadList_get? (l : List Entity) (att : List Nat)
    (out : List Entity) (hok : processLoadList l att = .ok out) (j : Nat)
    (ent : Entity) (h : l.get? j = some ent) :
    ∃ ent2, out.get? j = some ent2
      ∧ (ent.eid ∈ att → materializeEntity ent = .ok ent2)
      ∧ (ent.eid ∉ att → ent2 = ent) := by
  induction l generalizing out j with
  | nil => simp at h
  | cons b rest ih =>
    simp only [processLoadList] at hok
    by_cases hb : b.eid ∈ att
    · rw [if_pos hb] at hok
      cases hmb : materializeEntity b with
      | error m =>
        rw [hmb] at hok
        cases hok
      | ok b2 =>
        rw [hmb] at hok
        cases hrest : processLoadList rest att with
        | error m =>
          rw [hrest] at hok
          cases hok
        | ok l2 =>
          rw [hrest] at hok
          have hout : out = b2 :: l2 := (Except.ok.inj hok).symm
          subst hout
          cases j with
          | zero =>
            have hbe : ent = b := by
              simp only [List.get?, Option.some.injEq] at h
              exact h.symm
            refine ⟨b2, rfl, ?_, ?_⟩
            · intro _
              rw [hbe]
              exact hmb
            · intro hna
              rw [hbe] at hna
              exact absurd hb hna
          | succ j =>
            simp only [List.get?] at h
            exact ih l2 hrest j h
    · rw [if_neg hb] at hok
      cases hrest : processLoadList rest att with
      | error m =>
        rw [hrest] at hok
        cases hok
      | ok l2 =>
        rw [hrest] at hok
        have hout : out = b :: l2 := (Except.ok.inj hok).symm
        subst hout
        cases j with
        | zero =>
          have hbe : ent = b := by
            simp only [List.get?, Option.some.injEq] at h
            exact h.symm
          refine ⟨b, rfl, ?_, fun _ => hbe.symm⟩
          intro hin
          rw [hbe] at hin
          exact absurd hin hb
        | succ j =>
          simp only [List.get?] at h
          exact ih l2 hrest j h

/-- Helper: an attached captured entity whose materialization fails makes
the whole drain pass fail. -/
theorem processLoadList_error (l : List Entity) (att : List Nat)
    (ent : Entity) (hm : ent ∈ l) (ha : ent.eid ∈ att) (msg : String)
    (hf : materializeEntity ent = .error msg) :
    ∃ m2, processLoadList l att = .error m2 := by
  induction l with
  | nil => cases hm
  | cons b rest ih =>
    simp only [processLoadList]
    by_cases hb : b.eid ∈ att
    · rw [if_pos hb]
      cases hmb : materializeEntity b with
      | error m => exact ⟨m, rfl⟩
      | ok b2 =>
        have hbr : ent ∈ rest := by
          rcases List.mem_cons.mp hm with h6 | h6
          · subst h6
            rw [hf] at hmb
            cases hmb
          · exact h6
        obtain ⟨m2, hm2⟩ := ih hbr
        rw [hm2]
        exact ⟨m2, rfl⟩
    · rw [if_neg hb]
      have hbr : ent ∈ rest := by
        rcases List.mem_cons.mp hm with h6 | h6
        · subst h6
          exact absurd ha hb
        · exact h6
      obtain ⟨m2, hm2⟩ := ih hbr
      rw [hm2]
      exact ⟨m2, rfl⟩

/-- Helper: the forced pre-commit flush does not change whether the
transaction is nested. -/
theorem beforeCommitFlush_nested (s : MatSession) :
    (beforeCommitFlush s).nested = s.nested := by
  by_cases h : s.newObjs.isEmpty = true
  · simp [beforeCommitFlush, h]
  · simp [beforeCommitFlush, h, sessionFlush, _add_to_rel_load_list]

/-- C7: the before-commit materializer (after the forced flush of pending
objects): on a nested (savepoint) transaction it performs no
materialization and keeps the accumulator for the final commit; otherwise,
on success, the accumulator is drained and every captured entity still
attached to the session comes out with all its eagerly-configured
(`joined`/`subquery`) relationship attributes populated while detached
entities are left untouched; and if some attached captured entity has an
eager relationship attribute that a forced load cannot populate, the hook
aborts with an error. -/
theorem load_one_to_manys_correct (s : MatSession) :
    (s.nested = true → _load_one_to_manys s = .ok (beforeCommitFlush s, []))
    ∧ (s.nested = false → ∀ s2 ents,
        _load_one_to_manys s = .ok (s2, ents) →
          s2.loadRels = []
          ∧ ∀ j ent, (beforeCommitFlush s).loadRels.get? j = some ent →
              ∃ ent2, ents.get? j = some ent2
                ∧ (ent.eid ∈ (beforeCommitFlush s).attachedIds →
                    eagerPopulated ent2 = true ∧ ent2.eid = ent.eid
                    ∧ ent2.rels = ent.rels)
                ∧ (ent.eid ∉ (beforeCommitFlush s).attachedIds → ent2 = ent))
    ∧ (s.nested = false → ∀ ent, ent ∈ (beforeCommitFlush s).loadRels →
        ent.eid ∈ (beforeCommitFlush s).attachedIds →
        entityLoadFails ent = true →
        ∃ m, _load_one_to_manys s = .error m) := by
  have hn : (beforeCommitFlush s).nested = s.nested := beforeCommitFlush_nested s
  refine ⟨?_, ?_, ?_⟩
  · intro h
    rw [_load_one_to_manys]
    rw [hn.trans h]
    simp
  · intro h s2 ents hok
    rw [_load_one_to_manys, hn.trans h] at hok
    simp only [Bool.false_eq_true, if_false] at hok
    cases hpl : processLoadList (beforeCommitFlush s).loadRels
        (beforeCommitFlush s).attachedIds with
    | error m =>
      rw [hpl] at hok
      cases hok
    | ok out =>
      simp only [hpl] at hok
      injection hok with hpair
      injection hpair with hs2 hents
      subst hs2
      subst hents
      refine ⟨rfl, ?_⟩
      intro j ent hj
      obtain ⟨ent2, h1, h2, h3⟩ :=
        processLoadList_get? _ _ out hpl j ent hj
      refine ⟨ent2, h1, ?_, h3⟩
      intro hin
      exact materializeEntity_ok ent ent2 (h2 hin)
  · intro h ent hm ha hfail
    have hfr : ∃ r ∈ ent.rels, isEagerRel r = true
        ∧ r.key ∉ ent.populated ∧ r.key ∉ ent.loadable := by
      rw [entityLoadFails, List.any_eq_true] at hfail
      obtain ⟨r, hr, hprop⟩ := hfail
      simp only [Bool.and_eq_true, Bool.not_eq_true',
        decide_eq_false_iff_not] at hprop
      exact ⟨r, hr, hprop.1.1, hprop.1.2, hprop.2⟩
    obtain ⟨r, hr, he, hp, hl⟩ := hfr
    obtain ⟨m, hmerr⟩ := loadEagerRels_error ent.rels ent r hr he hp hl
    obtain ⟨m2, hm2⟩ :=
      processLoadList_error (beforeCommitFlush s).loadRels
        (beforeCommitFlush s).attachedIds ent hm ha m hmerr
    refine ⟨m2, ?_⟩
    rw [_load_one_to_manys, hn.trans h]
    simp only [Bool.false_eq_true, if_false]
    rw [hm2]

/-- C7 witness: on a nested (savepoint) transaction nothing is
materialized and the accumulator is kept. -/
theorem load_one_to_manys_correct_witness :
    _load_one_to_manys matNested = .ok (beforeCommitFlush matNested, []) :=
  (load_one_to_manys_correct matNested).1 rfl

/-- C9 counterexample: `sqla_remove` does not tolerate a subscription that
was never recorded — with the subscription live in the event framework but
absent from `_REGISTERED_SQLA_EVENTS`, the `list.remove` call raises
`ValueError` instead of succeeding quietly. -/
theorem sqla_remove_not_found_raises :
    sqla_remove ⟨[5], []⟩ 5 = .error "ValueError" := by
  simp [sqla_remove, event_remove, pyListRemove]

/-- C9 amended: `sqla_remove` removes the one specific recorded
subscription (from the event framework and from the registry) when it is
present, but raises when it is not found: `ValueError` from the registry
list removal if the subscription is not recorded, and
`InvalidRequestError` from `event.remove` if it is not live in the event
framework; only `sqla_remove_all` tolerates already-removed
subscriptions. -/
theorem sqla_remove_spec (s : EventState) (x : Nat) :
    (x ∈ s.listeners → x ∈ s.registered →
      sqla_remove s x = .ok ⟨s.listeners.erase x, s.registered.erase x⟩)
    ∧ (x ∈ s.listeners → x ∉ s.registered →
      sqla_remove s x = .error "ValueError")
    ∧ (x ∉ s.listeners → sqla_remove s x = .error "InvalidRequestError") := by
  refine ⟨?_, ?_, ?_⟩
  · intro hl hr
    simp [sqla_remove, event_remove, pyListRemove, hl, hr]
  · intro hl hr
    simp [sqla_remove, event_remove, pyListRemove, hl, hr]
  · intro hl
    simp [sqla_remove, event_remove, hl]

/-- C9 witness: a recorded subscription is removed from both the event
framework and the registry. -/
theorem sqla_remove_spec_witness :
    sqla_remove ⟨[5], [5]⟩ 5
      = .ok ⟨([5] : List Nat).erase 5, ([5] : List Nat).erase 5⟩ :=
  (sqla_remove_spec ⟨[5], [5]⟩ 5).1 (by decide) (by decide)

/-- C10: `get_context_manager` is sequentially idempotent — a second call
returns the very same context-manager object and leaves the module state
untouched; on first access the created singleton is configured exactly
once, and once `_CTX_MANAGER` is set every call returns it without
touching it. -/
theorem get_context_manager_idempotent (s : ModuleState) :
    (get_context_manager (get_context_manager s).2).1
      = (get_context_manager s).1
    ∧ (get_context_manager (get_context_manager s).2).2
      = (get_context_manager s).2
    ∧ (get_context_manager s).2.ctxManager = some (get_context_manager s).1
    ∧ (s.ctxManager = none →
        ((get_context_manager s).1).configureCount = 1)
    ∧ (∀ m, s.ctxManager = some m →
        (get_context_manager s).1 = m ∧ (get_context_manager s).2 = s) := by
  cases hs : s.ctxManager with
  | some m =>
    simp [get_context_manager, hs]
  | none =>
    simp [get_context_manager, hs, _create_context_manager,
      transaction_context, ctxConfigure]

/-- C10 witness: from a fresh module state, the second call returns the
first call's object with the state unchanged, and the singleton was
configured exactly once. -/
theorem get_context_manager_idempotent_witness :
    (get_context_manager (get_context_manager ⟨none, 0⟩).2).1
      = (get_context_manager ⟨none, 0⟩).1
    ∧ ((get_context_manager ⟨none, 0⟩).1).configureCount = 1 :=
  ⟨(get_context_manager_idempotent ⟨none, 0⟩).1,
   (get_context_manager_idempotent ⟨none, 0⟩).2.2.2.1 rfl⟩
